import Mathlib

/-!
Verification of the Grafana Bridge plugin (`plugin.js`) for Super Productivity.

The development shallowly embeds the plugin's data-enrichment and
line-protocol-encoding pipeline:

* JavaScript numbers are modelled as exact rationals extended with the IEEE
  special values `nan`, `posInf`, `negInf` (signed zero and double rounding
  are not modelled; no claim depends on them).
* JavaScript's loosely typed task-record fields are modelled by `JSVal`
  (string / number / boolean / null / undefined).
* Asynchronous effects (the network, persistence, notifications) are made
  explicit: the network is a `NetResult` parameter, the current wall-clock
  time is passed as an explicit `now` argument, and user-visible
  notifications (`showSnack` calls) are returned as lists.

All definitions follow `plugin.js`; line references in doc comments point
into that file.
-/

namespace GrafanaBridge

/-- JavaScript numbers: an exact rational together with the IEEE special
values.  Negative zero is identified with zero. -/
inductive JSNumber where
  | finite (q : ℚ)
  | nan
  | posInf
  | negInf
deriving DecidableEq

/-- Truncation toward zero of a rational, as performed by JavaScript's
ToIntegerOrInfinity on finite values. -/
def ratTrunc (q : ℚ) : ℤ := Int.tdiv q.num (q.den : ℤ)

/-- JavaScript division on numbers (`a / b`).  `0 / 0` and `inf / inf` give
`NaN`; division of a nonzero finite value by zero gives a signed infinity;
division by an infinity gives `0`. -/
def jsDiv (a b : JSNumber) : JSNumber :=
  match a, b with
  | .nan, _ => .nan
  | _, .nan => .nan
  | .posInf, .posInf => .nan
  | .posInf, .negInf => .nan
  | .negInf, .posInf => .nan
  | .negInf, .negInf => .nan
  | .posInf, .finite q => if 0 ≤ q then .posInf else .negInf
  | .negInf, .finite q => if 0 ≤ q then .negInf else .posInf
  | .finite _, .posInf => .finite 0
  | .finite _, .negInf => .finite 0
  | .finite a, .finite b =>
      if b = 0 then (if a = 0 then .nan else if 0 < a then .posInf else .negInf)
      else .finite (a / b)

/-- Decimal digits of a rational in `[0, 1)`, produced most significant
first, with the given fuel bounding the number of digits. -/
def decDigits : ℕ → ℚ → String
  | 0, _ => ""
  | f + 1, q =>
      if q = 0 then ""
      else toString (ratTrunc (q * 10)) ++ decDigits f (q * 10 - ((ratTrunc (q * 10) : ℤ) : ℚ))

/-- JavaScript number-to-string coercion (`String(n)`) restricted to the
values this program produces: integers print exactly; non-integral rationals
print sign, integer part and up to twenty fractional decimal digits.  (The
program only ever prints integers; see `enrichTaskData` and
`toLineProtocol`.) -/
def numToString : JSNumber → String
  | .nan => "NaN"
  | .posInf => "Infinity"
  | .negInf => "-Infinity"
  | .finite q =>
      if q.den = 1 then toString q.num
      else (if q < 0 then "-" else "") ++ toString (ratTrunc |q|) ++ "." ++
        decDigits 20 (|q| - ((ratTrunc |q| : ℤ) : ℚ))

/-- JavaScript values as they occur in task records: primitive strings,
numbers, booleans, `null` and `undefined`.  (Object-valued fields do not
occur on the paths modelled here.) -/
inductive JSVal where
  | str (s : String)
  | num (n : JSNumber)
  | boolean (b : Bool)
  | null
  | undefined
deriving DecidableEq

/-- JavaScript truthiness of a value. -/
def jsTruthy : JSVal → Bool
  | .str s => !(s == "")
  | .num (.finite q) => !(q == 0)
  | .num .nan => false
  | .num .posInf => true
  | .num .negInf => true
  | .boolean b => b
  | .null => false
  | .undefined => false

/-- JavaScript string coercion `String(v)` of a primitive value. -/
def jsToString : JSVal → String
  | .str s => s
  | .num n => numToString n
  | .boolean b => if b then "true" else "false"
  | .null => "null"
  | .undefined => "undefined"

/-- Whitespace characters stripped by JavaScript's string-to-number
coercion (the common ones; exotic Unicode whitespace is not modelled). -/
def isWs (c : Char) : Bool := c == ' ' || c == '\t' || c == '\n' || c == '\r'

/-- Strip leading and trailing whitespace from a character list. -/
def trimChars (l : List Char) : List Char :=
  ((l.dropWhile isWs).reverse.dropWhile isWs).reverse

/-- Check that every character is a decimal digit. -/
def allDigits (l : List Char) : Bool := l.all Char.isDigit

/-- Numeric value of a list of decimal digits. -/
def natOfDigits (l : List Char) : ℕ :=
  l.foldl (fun a c => a * 10 + (c.toNat - 48)) 0

/-- Parse an optionally signed decimal numeric literal (integer part,
optional dot, fractional part), as in JavaScript's StringToNumber.
Hexadecimal and exponent forms are not modelled (unexercised here). -/
def parseDecChars (l : List Char) : Option ℚ :=
  let (neg, rest) :=
    match l with
    | '-' :: r => (true, r)
    | '+' :: r => (false, r)
    | r => (false, r)
  let sgn : ℚ := if neg then -1 else 1
  let intPart := rest.takeWhile (fun c => !(c == '.'))
  match rest.drop intPart.length with
  | [] =>
      if intPart ≠ [] ∧ allDigits intPart then some (sgn * natOfDigits intPart) else none
  | _ :: fracPart =>
      if (intPart ≠ [] ∨ fracPart ≠ []) ∧ allDigits intPart ∧ allDigits fracPart then
        some (sgn * ((natOfDigits intPart : ℚ) +
          (natOfDigits fracPart : ℚ) / (10 ^ fracPart.length : ℚ)))
      else none

/-- JavaScript string-to-number coercion: trimmed empty string is `0`,
`Infinity` forms map to the infinities, decimal literals parse exactly,
anything else is `NaN`. -/
def stringToNumber (s : String) : JSNumber :=
  let t := trimChars s.data
  if t = [] then .finite 0
  else if t = "Infinity".data ∨ t = "+Infinity".data then .posInf
  else if t = "-Infinity".data then .negInf
  else
    match parseDecChars t with
    | some q => .finite q
    | none => .nan

/-- JavaScript ToNumber coercion of a primitive value. -/
def toNumber : JSVal → JSNumber
  | .str s => stringToNumber s
  | .num n => n
  | .boolean b => .finite (if b then 1 else 0)
  | .null => .finite 0
  | .undefined => .nan

/-- JavaScript comparison `v > 0` (ToNumber both sides; `NaN` compares
false). -/
def jsGtZero (v : JSVal) : Bool :=
  match toNumber v with
  | .finite q => decide (0 < q)
  | .posInf => true
  | .nan => false
  | .negInf => false

/-- Whether `typeof v === 'number'`. -/
def isNumberVal : JSVal → Bool
  | .num _ => true
  | _ => false

/-- JavaScript string fallback `s || fallback` for string-valued
expressions: the fallback is taken exactly when the string is empty. -/
def jsOr (s fallback : String) : String := if s = "" then fallback else s

/-- Does `l` start with `p`? -/
def lStartsWith : List Char → List Char → Bool
  | [], _ => true
  | _ :: _, [] => false
  | p :: ps, c :: cs => p == c && lStartsWith ps cs

/-- Does `l` contain `sub` as a contiguous substring?  Models JavaScript's
`String.prototype.includes`. -/
def hasSubstr (sub : List Char) : List Char → Bool
  | [] => sub == []
  | c :: cs => lStartsWith sub (c :: cs) || hasSubstr sub cs

/-- String-level substring test. -/
def strContains (s sub : String) : Bool := hasSubstr sub.data s.data

/-- Tag/measurement/field-key escaping, `plugin.js` lines 244–247: a single
left-to-right pass inserting a backslash before each space, comma and
equals sign. -/
def escapeTagChars : List Char → List Char
  | [] => []
  | c :: cs =>
      if c == ' ' || c == ',' || c == '=' then '\\' :: c :: escapeTagChars cs
      else c :: escapeTagChars cs

/-- String form of `escapeTag` applied to an already-string value. -/
def escapeTag (s : String) : String := String.mk (escapeTagChars s.data)

/-- The `escapeTag` coercion applied to a raw value, `plugin.js` line 244–247:
`null`/`undefined` become the empty string, everything else is coerced with
`String(...)` and escaped. -/
def escapeTagVal (v : JSVal) : String :=
  match v with
  | .null => ""
  | .undefined => ""
  | v => escapeTag (jsToString v)

/-- Replace every double quote by backslash–quote (the first `.replace` of
`plugin.js` line 252). -/
def escQuoteChars : List Char → List Char
  | [] => []
  | c :: cs =>
      if c == '"' then '\\' :: '"' :: escQuoteChars cs
      else c :: escQuoteChars cs

/-- Replace every backslash by two backslashes (the second `.replace` of
`plugin.js` line 252). -/
def escBackslashChars : List Char → List Char
  | [] => []
  | c :: cs =>
      if c == '\\' then '\\' :: '\\' :: escBackslashChars cs
      else c :: escBackslashChars cs

/-- String-field encoding exactly as `plugin.js` line 251–253 performs it:
coerce to string, first escape double quotes, then escape backslashes, and
wrap in double quotes.  (Note the order: quotes are escaped before
backslashes.) -/
def escapeStringField (v : JSVal) : String :=
  String.mk ('"' :: escBackslashChars (escQuoteChars (jsToString v).data) ++ ['"'])

/-- Modelled from the spec: the escaping order the specification prescribes
for string field values — internal backslashes escaped first, double quotes
escaped second — for comparison with `escapeStringField`. -/
def escapeStringFieldSpecOrder (s : String) : String :=
  String.mk ('"' :: escQuoteChars (escBackslashChars s.data) ++ ['"'])

/-- Reader for a line-protocol quoted string-field body: consumes characters
up to an unescaped closing quote, mapping `\"` to `"` and `\\` to `\`;
returns the decoded content and the remaining input, or `none` if the
closing quote is missing. -/
def unquote : List Char → Option (List Char × List Char)
  | [] => none
  | '\\' :: '"' :: rest => (unquote rest).map (fun r => ('"' :: r.1, r.2))
  | '\\' :: '\\' :: rest => (unquote rest).map (fun r => ('\\' :: r.1, r.2))
  | '"' :: rest => some ([], rest)
  | c :: rest => (unquote rest).map (fun r => (c :: r.1, r.2))

/-- Parse a complete encoded string-field value: an opening quote, a quoted
body, a closing quote, and nothing after it.  This is the re-parsing
direction of the escaping round-trip. -/
def parseFieldString (s : String) : Option String :=
  match s.data with
  | '"' :: rest =>
      match unquote rest with
      | some (content, []) => some (String.mk content)
      | _ => none
  | _ => none

/-- Plugin configuration (`plugin.js` lines 20–24): endpoint URL, auth
token and measurement name.  A missing/unset field is the empty string
(JavaScript-falsy). -/
structure Config where
  url : String
  token : String
  measurement : String
deriving DecidableEq

/-- A raw task record as read from the host application.  Every field may
be absent or of an unexpected type, hence `JSVal`; `tagIds` is `none` when
the property is absent or otherwise falsy, and `some l` when it is an array
(`plugin.js` line 215 evaluates `task.tagIds || []`). -/
structure Task where
  id : JSVal
  title : JSVal
  projectId : JSVal
  tagIds : Option (List JSVal)
  isDone : JSVal
  timeSpent : JSVal
  timeEstimate : JSVal
  updated : JSVal
  created : JSVal
deriving DecidableEq

/-- The metadata caches (`projectsMap` and `tagsMap`, `plugin.js` lines
29–31): id-to-title association lists. -/
structure Caches where
  projects : List (String × String)
  tags : List (String × String)
deriving DecidableEq

/-- A structured data point (`plugin.js` lines 217–232): measurement, tag
entries, field entries (both in insertion order) and a millisecond
timestamp. -/
structure DataPoint where
  measurement : String
  tags : List (String × JSVal)
  fields : List (String × JSVal)
  timestamp : JSNumber
deriving DecidableEq

/-- Model of `new Date(v).getTime()` for the values that reach it here: finite
numbers within the ECMAScript time range pass through truncated toward
zero, out-of-range and non-finite numbers give `NaN`, booleans and `null`
coerce numerically, `undefined` gives `NaN`.  Host parsing of date strings
is beyond the modelled fragment and is mapped to `NaN` (no claim exercises
it: the program's timestamps are numbers when present). -/
def dateGetTime : JSVal → JSNumber
  | .num (.finite q) =>
      if |q| ≤ 8640000000000000 then .finite ((ratTrunc q : ℤ) : ℚ) else .nan
  | .num _ => .nan
  | .boolean b => .finite (if b then 1 else 0)
  | .null => .finite 0
  | .undefined => .nan
  | .str _ => .nan

/-- The guarded efficiency computation of `plugin.js` line 229:
`(task.timeEstimate > 0 && typeof task.timeSpent === 'number') ?
(task.timeSpent / task.timeEstimate) : 1`. -/
def efficiency (timeSpent timeEstimate : JSVal) : JSNumber :=
  if jsGtZero timeEstimate && isNumberVal timeSpent then
    jsDiv (toNumber timeSpent) (toNumber timeEstimate)
  else .finite 1

/-- Model of `typeof v === 'number' ? v : 0` (`plugin.js` lines 226 and 228). -/
def numericOrZero (v : JSVal) : JSNumber :=
  match v with
  | .num n => n
  | _ => .finite 0

/-- Model of `enrichTaskData` (`plugin.js` lines 212–233): builds the structured
data point from a raw task, the metadata caches, the active configuration
and the current time (the explicit image of `Date.now()`). -/
def enrichTaskData (task : Task) (cache : Caches) (cfg : Config) (now : ℚ) : DataPoint :=
  let projectName :=
    match cache.projects.lookup (jsToString task.projectId) with
    | some t => if t = "" then "Unassigned" else t
    | none => "Unassigned"
  let tagNames :=
    (task.tagIds.getD []).map fun i =>
      match cache.tags.lookup (jsToString i) with
      | some t => if t = "" then i else JSVal.str t
      | none => i
  { measurement := jsOr cfg.measurement "superprod_tasks"
    tags :=
      [("project", .str projectName),
       ("context",
         match tagNames.head? with
         | some v => if jsTruthy v then v else .str "Default"
         | none => .str "Default"),
       ("task_id", if jsTruthy task.id then task.id else .str "unknown"),
       ("is_done", .str (if jsTruthy task.isDone then "true" else "false"))]
    fields :=
      [("duration_ms", .num (numericOrZero task.timeSpent)),
       ("title", if jsTruthy task.title then task.title else .str "Untitled"),
       ("estimate_ms", .num (numericOrZero task.timeEstimate)),
       ("efficiency_ratio", .num (efficiency task.timeSpent task.timeEstimate))]
    timestamp :=
      dateGetTime
        (if jsTruthy task.updated then task.updated
         else if jsTruthy task.created then task.created
         else .num (.finite now)) }

/-- Model of `Array.prototype.join(sep)`. -/
def joinSep (sep : String) : List String → String
  | [] => ""
  | [a] => a
  | a :: b :: rest => a ++ sep ++ joinSep sep (b :: rest)

/-- Tag entries with `null`, `undefined` or empty-string values are dropped
(`plugin.js` line 256). -/
def keepTag (v : JSVal) : Bool :=
  !(v == JSVal.null) && !(v == JSVal.undefined) && !(v == JSVal.str "")

/-- Field entries with `null` or `undefined` values are dropped
(`plugin.js` line 261). -/
def keepField (v : JSVal) : Bool :=
  !(v == JSVal.null) && !(v == JSVal.undefined)

/-- Field-value encoding by type (`plugin.js` lines 264–271): numbers print
as decimal strings, booleans as `true`/`false`, anything else as a quoted
escaped string. -/
def encodeFieldValue : JSVal → String
  | .num n => numToString n
  | .boolean b => if b then "true" else "false"
  | v => escapeStringField v

/-- Model of `toLineProtocol` (`plugin.js` lines 238–280): render one data point as
a line-protocol line, or the empty string when no field survives
filtering.  `now` is the explicit image of the `Date.now()` fallback used
for a `NaN` timestamp. -/
def toLineProtocol (item : DataPoint) (now : ℚ) : String :=
  let ts : JSNumber :=
    match item.timestamp with
    | .nan => .finite now
    | t => t
  let tagsStr :=
    joinSep ","
      ((item.tags.filter fun kv => keepTag kv.2).map fun kv =>
        escapeTag kv.1 ++ "=" ++ escapeTagVal kv.2)
  let fieldsStr :=
    joinSep ","
      ((item.fields.filter fun kv => keepField kv.2).map fun kv =>
        escapeTag kv.1 ++ "=" ++ encodeFieldValue kv.2)
  if fieldsStr = "" then ""
  else
    escapeTag item.measurement ++ (if tagsStr = "" then "" else "," ++ tagsStr) ++
      " " ++ fieldsStr ++ " " ++ numToString ts

/-- Append `precision=ms` to the query string when not already present
(`plugin.js` lines 298–302). -/
def withPrecision (url : String) : String :=
  if strContains url "precision=" then url
  else url ++ (if strContains url "?" then "&" else "?") ++ "precision=ms"

/-- The newline-joined body built from a payload: each point is encoded and
empty lines are dropped (`plugin.js` line 305). -/
def bodyOf (payload : List DataPoint) (now : ℚ) : String :=
  joinSep "\n" ((payload.map fun p => toLineProtocol p now).filter fun l => !(l == ""))

/-- The observable outcome of `sendToGrafana` up to the network boundary:
a thrown configuration error, a silent return for an unconfigured ambient
send, a silent return for an empty body, or an issued POST request with its
target URL and body. -/
inductive SendOutcome where
  | configError
  | skippedNoConfig
  | skippedEmptyBody
  | request (url : String) (body : String)
deriving DecidableEq

/-- Model of `sendToGrafana` (`plugin.js` lines 285–309) up to the network boundary.
`ov` is the optional explicit `cfgOverride` argument; when it is absent the
stored global configuration `g` is used (`cfgOverride || globalConfig`).
With the effective URL or token missing, an explicit override makes the
call throw, otherwise it returns silently; an empty body returns silently
before any request. -/
def sendToGrafana (payload : List DataPoint) (ov : Option Config) (g : Config)
    (now : ℚ) : SendOutcome :=
  let cfg := ov.getD g
  if cfg.url = "" ∨ cfg.token = "" then
    match ov with
    | some _ => .configError
    | none => .skippedNoConfig
  else
    let body := bodyOf payload now
    if body = "" then .skippedEmptyBody
    else .request (withPrecision cfg.url) body

/-- The network's answer to an issued request: success, a non-success HTTP
response (status, status text, response body), or a transport-level
failure. -/
inductive NetResult where
  | ok
  | httpError (status : ℕ) (statusText : String) (body : String)
  | netFailure (msg : String)
deriving DecidableEq

/-- Truncate a response body to its first 500 characters, with an ellipsis
marker (`plugin.js` line 330). -/
def truncate500 (s : String) : String :=
  if 500 < s.length then s.take 500 ++ "..." else s

/-- The error message `sendToGrafana` throws for a given network answer
(`plugin.js` lines 323–338), or `none` on success. -/
def errMsgOf : NetResult → Option String
  | .ok => none
  | .httpError status statusText body =>
      some ("Upstream error " ++ toString status ++ " (" ++ statusText ++ "): " ++
        truncate500 body)
  | .netFailure m => some m

/-- The full `sendToGrafana` including the network interaction: the result the
caller awaits — `Except.error` exactly when the function throws. -/
def sendFull (payload : List DataPoint) (ov : Option Config) (g : Config) (now : ℚ)
    (net : NetResult) : Except String Unit :=
  match sendToGrafana payload ov g now with
  | .configError => .error "Please enter complete URL and Token."
  | .skippedNoConfig => .ok ()
  | .skippedEmptyBody => .ok ()
  | .request _ _ =>
      match errMsgOf net with
      | none => .ok ()
      | some m => .error m

/-- What the real-time sync path makes observable: a caught-and-logged
error, a silent non-send, or an issued request. -/
inductive SyncObservable where
  | caughtError
  | noSend
  | sent (url : String) (body : String)
deriving DecidableEq

/-- Model of `syncTask` (`plugin.js` lines 345–352): enrich the task and send it,
passing the stored global configuration as the explicit `cfgOverride`
argument; every exception is caught and logged, never propagated. -/
def syncTask (task : Task) (cache : Caches) (g : Config) (now : ℚ) : SyncObservable :=
  match sendToGrafana [enrichTaskData task cache g now] (some g) g now with
  | .configError => .caughtError
  | .skippedNoConfig => .noSend
  | .skippedEmptyBody => .noSend
  | .request u b => .sent u b

/-- Notification severities used with `PluginAPI.showSnack`. -/
inductive Sev where
  | SUCCESS
  | ERROR
  | INFO
deriving DecidableEq

/-- A user-visible notification: severity and message. -/
structure Snack where
  sev : Sev
  msg : String
deriving DecidableEq

/-- The `save-config` branch of `handleGlobalMessage` (`plugin.js` lines
81–95): with a config in the message, the global configuration is replaced
in memory and persistence is attempted; a success shows one SUCCESS snack,
a persistence failure is only logged.  Returns the new global configuration
and the notifications shown. -/
def handleSaveConfig (g : Config) (msgConfig : Option Config) (persistOk : Bool) :
    Config × List Snack :=
  match msgConfig with
  | none => (g, [])
  | some c =>
      if persistOk then (c, [⟨.SUCCESS, "Configuration persisted."⟩]) else (c, [])

/-- The synthetic heartbeat data point built by `testConnection`
(`plugin.js` lines 371–377). -/
def mkHeartbeat (cfg : Config) (now : ℚ) : DataPoint :=
  { measurement := jsOr cfg.measurement "superprod_tasks"
    tags := [("service", .str "grafana-bridge"), ("type", .str "heartbeat")]
    fields := [("status", .num (.finite 1))]
    timestamp := .finite now }

/-- The observable behaviour of one `testConnection` call: the data points
passed to `sendToGrafana`, the pre-network outcome of that call (`none`
when validation failed before any send), and the notifications shown. -/
structure TestConnRun where
  sentPoints : List DataPoint
  outcome : Option SendOutcome
  snacks : List Snack
deriving DecidableEq

/-- Model of `testConnection` (`plugin.js` lines 358–391): validate the passed
configuration, build one heartbeat point, send it with the passed
configuration as explicit override, and report success or failure with
exactly one snack. -/
def testConnection (cfg : Config) (now : ℚ) (net : NetResult) : TestConnRun :=
  if cfg.url = "" ∨ cfg.token = "" then
    ⟨[], none, [⟨.ERROR, "Please enter URL and Token first to test connection."⟩]⟩
  else
    let hb := mkHeartbeat cfg now
    match sendFull [hb] (some cfg) cfg now net with
    | .ok _ =>
        ⟨[hb], some (sendToGrafana [hb] (some cfg) cfg now),
         [⟨.SUCCESS, "Connection verified successfully."⟩]⟩
    | .error m =>
        ⟨[hb], some (sendToGrafana [hb] (some cfg) cfg now),
         [⟨.ERROR, "Connection failed: " ++ m⟩]⟩

/-- The fixed bulk-import batch size (`plugin.js` line 409). -/
def batchSize : ℕ := 50

/-- Split a list into consecutive batches of `batchSize` (the
`slice(i, i + BATCH_SIZE)` loop of `plugin.js` lines 410–414). -/
def chunks : List Task → List (List Task)
  | [] => []
  | t :: ts => ((t :: ts).take batchSize) :: chunks ((t :: ts).drop batchSize)
termination_by l => l.length
decreasing_by simp [batchSize]; omega

/-- The batch loop of `importAllHistory`: send each batch in order with the
stored configuration as explicit override; the first thrown error aborts
the remaining batches.  `net k` is the network's answer to the `k`-th
request; the result is the list of batches processed (the failing one
included) and the first error message, if any. -/
def goBatches (cache : Caches) (g : Config) (now : ℚ) (net : ℕ → NetResult) :
    ℕ → List (List Task) → List (List Task) × Option String
  | _, [] => ([], none)
  | k, b :: bs =>
      match sendFull (b.map fun t => enrichTaskData t cache g now) (some g) g now (net k) with
      | .ok _ =>
          let r := goBatches cache g now net (k + 1) bs
          (b :: r.1, r.2)
      | .error m => ([b], some m)

/-- The observable behaviour of one bulk import: the batches for which a
send was attempted, in order, and the notifications shown. -/
structure ImportRun where
  batches : List (List Task)
  snacks : List Snack
deriving DecidableEq

/-- Model of `importAllHistory` (`plugin.js` lines 396–423): concatenate archived
and active tasks, walk them in batches of fifty, send each batch
sequentially; a failure aborts the remaining batches and yields one ERROR
snack (after the initial INFO snack), a full success yields one SUCCESS
snack carrying the total item count. -/
def importAllHistory (archived active : List Task) (cache : Caches) (g : Config)
    (now : ℚ) (net : ℕ → NetResult) : ImportRun :=
  let allTasks := archived ++ active
  let r := goBatches cache g now net 0 (chunks allTasks)
  match r.2 with
  | none =>
      ⟨r.1, [⟨.INFO, "Initiating global historical import..."⟩,
             ⟨.SUCCESS, "Successfully exported " ++ toString allTasks.length ++ " items."⟩]⟩
  | some m =>
      ⟨r.1, [⟨.INFO, "Initiating global historical import..."⟩,
             ⟨.ERROR, "Bulk transfer failed: " ++ m⟩]⟩

/-- Events driving the debounced `taskUpdate` path: an update arrival
(which resets the single shared 5000 ms timer, `plugin.js` lines 161–167)
or the passage of `ms` milliseconds. -/
inductive DebEvent where
  | update (t : Task)
  | tick (ms : ℕ)

/-- One step of the debounce state machine.  The state is the pending
timer: `some (t, r)` means the update carrying `t` fires in `r` ms.  An
update clears any pending timer and arms a fresh 5000 ms one; when enough
time passes, the pending task is emitted (sent via `syncTask`). -/
def debStep : Option (Task × ℕ) → DebEvent → Option (Task × ℕ) × List Task
  | _, .update t => (some (t, 5000), [])
  | none, .tick _ => (none, [])
  | some (t, r), .tick d => if d < r then (some (t, r - d), []) else (none, [t])

/-- Run the debounce machine over an event list, collecting every emitted
(sent) task in order. -/
def debRun (s : Option (Task × ℕ)) : List DebEvent → List Task
  | [] => []
  | e :: es => (debStep s e).2 ++ debRun (debStep s e).1 es

/-- Build the event trace for a burst of updates: each pair `(t, g)` is an
update carrying task `t` followed by `g` ms of quiet. -/
def mkTrace : List (Task × ℕ) → List DebEvent
  | [] => []
  | (t, g) :: rest => .update t :: .tick g :: mkTrace rest

/-- The initial global configuration (`plugin.js` lines 20–24): empty URL
and token, default measurement name. -/
def defaultConfig : Config := ⟨"", "", "superprod_tasks"⟩

/-- A complete configuration with an explicit measurement name. -/
def fullConfig : Config := ⟨"http://influx.test/api/v2/write", "tok", "mymeas"⟩

/-- A complete configuration that leaves the measurement name unset. -/
def noMeasConfig : Config := ⟨"http://influx.test/api/v2/write", "tok", ""⟩

/-- A task record with every property absent. -/
def emptyTask : Task :=
  ⟨.undefined, .undefined, .undefined, none, .undefined, .undefined, .undefined,
   .undefined, .undefined⟩

/-- A second distinguishable task record. -/
def otherTask : Task :=
  ⟨.str "b", .undefined, .undefined, none, .undefined, .undefined, .undefined,
   .undefined, .undefined⟩

/-- The worked example task of the specification (in the source's property
names: `timeSpent`, `timeEstimate`, `updated`). -/
def exampleTask : Task :=
  { id := .str "t1", title := .str "Write spec", projectId := .str "p1",
    tagIds := some [.str "g1"], isDone := .boolean true,
    timeSpent := .num (.finite 3600000), timeEstimate := .num (.finite 1800000),
    updated := .num (.finite 1700000000000), created := .undefined }

/-- The worked example's metadata caches. -/
def exampleCaches : Caches := ⟨[("p1", "Alpha")], [("g1", "Deep Work")]⟩

/-- The data point the worked example task enriches to. -/
def exampleDataPoint : DataPoint :=
  { measurement := "superprod_tasks",
    tags := [("project", .str "Alpha"), ("context", .str "Deep Work"),
             ("task_id", .str "t1"), ("is_done", .str "true")],
    fields := [("duration_ms", .num (.finite 3600000)), ("title", .str "Write spec"),
               ("estimate_ms", .num (.finite 1800000)),
               ("efficiency_ratio", .num (.finite 2))],
    timestamp := .finite 1700000000000 }

/-- A data point whose only field value is `null` (so no field survives
filtering). -/
def nullFieldPoint : DataPoint := ⟨"m", [], [("x", JSVal.null)], .finite 7⟩

/-- A network schedule whose first request succeeds and whose later
requests fail at the transport level. -/
def netFailAfterFirst : ℕ → NetResult :=
  fun k => if k = 0 then .ok else .netFailure "boom"

/-! ## Helper lemmas -/

theorem length_pos_of_ne_empty (s : String) (h : s ≠ "") : 0 < s.length := by
  cases s with
  | mk data =>
    cases data with
    | nil => exact absurd rfl h
    | cons c cs => simp [String.length]

theorem ne_empty_of_length_pos (s : String) (h : 0 < s.length) : s ≠ "" := by
  intro he
  subst he
  exact absurd h (by decide)

theorem joinSep_length_ge (sep a : String) (l : List String) :
    a.length ≤ (joinSep sep (a :: l)).length := by
  cases l with
  | nil => simp [joinSep]
  | cons b t =>
      simp only [joinSep, String.length_append]
      omega

theorem joinSep_ne_empty (sep a : String) (l : List String) (h : a ≠ "") :
    joinSep sep (a :: l) ≠ "" :=
  ne_empty_of_length_pos _ (lt_of_lt_of_le (length_pos_of_ne_empty a h) (joinSep_length_ge sep a l))

theorem toLineProtocol_ne_empty (item : DataPoint) (now : ℚ)
    (h : item.fields.filter (fun kv => keepField kv.2) ≠ []) :
    toLineProtocol item now ≠ "" := by
  obtain ⟨kv, rest, hfil⟩ :
      ∃ kv rest, item.fields.filter (fun kv => keepField kv.2) = kv :: rest := by
    cases hc : item.fields.filter (fun kv => keepField kv.2) with
    | nil => exact absurd hc h
    | cons a l => exact ⟨a, l, rfl⟩
  unfold toLineProtocol
  rw [hfil]
  simp only [List.map_cons]
  have hent : escapeTag kv.1 ++ "=" ++ encodeFieldValue kv.2 ≠ "" := by
    apply ne_empty_of_length_pos
    simp only [String.length_append]
    have heq : ("=" : String).length = 1 := rfl
    omega
  have hfs :
      joinSep "," ((escapeTag kv.1 ++ "=" ++ encodeFieldValue kv.2) ::
        rest.map fun kv => escapeTag kv.1 ++ "=" ++ encodeFieldValue kv.2) ≠ "" :=
    joinSep_ne_empty _ _ _ hent
  rw [if_neg hfs]
  apply ne_empty_of_length_pos
  simp only [String.length_append]
  have hsp : (" " : String).length = 1 := rfl
  omega

/-! ## Claim C1 -/

/-- Claim C1: the specification states that string field values are
encoded by escaping internal backslashes first and double quotes second,
so that re-parsing yields the original string.  The code (`plugin.js` line
252) applies the replacements in the opposite order — quotes first, then
backslashes — which double-escapes the backslashes introduced by the quote
escaping.  At the one-character string `"` the code emits `"\\""`, whose
body re-parses as a lone backslash followed by a premature closing quote,
so the round-trip fails; the spec-prescribed order round-trips the same
input.  The claim's intent is correct and the code's escaping order is the
bug. -/
theorem C1_escape_order_bug :
    escapeStringField (.str "\"") = "\"\\\\\"\"" ∧
    parseFieldString (escapeStringField (.str "\"")) = none ∧
    parseFieldString (escapeStringFieldSpecOrder "\"") = some "\"" :=
  ⟨rfl, rfl, rfl⟩

/-! ## Claim C2 -/

theorem exampleEnrich_eq :
    enrichTaskData exampleTask exampleCaches noMeasConfig 0 = exampleDataPoint := by
  have hEff :
      efficiency (JSVal.num (.finite 3600000)) (JSVal.num (.finite 1800000)) = .finite 2 := by
    simp [efficiency, jsGtZero, toNumber, isNumberVal, jsDiv]
    norm_num
  unfold enrichTaskData
  simp only [exampleTask, exampleCaches, noMeasConfig, hEff]
  norm_num [jsTruthy, jsToString, jsOr, dateGetTime, numericOrZero, ratTrunc, exampleDataPoint]
  decide

/-- Claim C2, corrected part: the claim's expected line begins with the
default measurement name `tasks`, but the code's default measurement name
(`plugin.js` lines 218 and 23) is `superprod_tasks`, so the encoded line
differs from the claimed one. -/
theorem C2_counterexample :
    toLineProtocol (enrichTaskData exampleTask exampleCaches noMeasConfig 0) 0 ≠
      "tasks,project=Alpha,context=Deep\\ Work,task_id=t1,is_done=true duration_ms=3600000,title=\"Write spec\",estimate_ms=1800000,efficiency_ratio=2 1700000000000" := by
  rw [exampleEnrich_eq]
  decide

/-- Claim C2 as amended: with the default measurement name
`superprod_tasks` (not `tasks`), enrich followed by encode on the worked
example produces exactly the claimed line. -/
theorem C2_default_measurement_line :
    toLineProtocol (enrichTaskData exampleTask exampleCaches noMeasConfig 0) 0 =
      "superprod_tasks,project=Alpha,context=Deep\\ Work,task_id=t1,is_done=true duration_ms=3600000,title=\"Write spec\",estimate_ms=1800000,efficiency_ratio=2 1700000000000" := by
  rw [exampleEnrich_eq]
  set_option maxRecDepth 10000 in decide

/-! ## Claim C3 -/

/-- Claim C3, corrected part: the claim says a missing URL/token makes
`sendToGrafana` signal a configuration error if and only if the call is an
explicit/interactive request, and that the real-time task-sync path is a
silent no-op with no error raised.  But `syncTask` (`plugin.js` line 348)
passes the stored global configuration as the explicit `cfgOverride`
argument, so `sendToGrafana` takes the throwing branch there too: on the
background path a configuration error is signalled to `syncTask`, which
then catches and logs it. -/
theorem C3_counterexample :
    sendToGrafana [mkHeartbeat defaultConfig 0] (some defaultConfig) defaultConfig 0 =
      SendOutcome.configError ∧
    syncTask emptyTask ⟨[], []⟩ defaultConfig 0 = SyncObservable.caughtError := by
  constructor <;> decide

/-- Claim C3 as amended: with the effective URL or token missing,
`sendToGrafana` throws a configuration error exactly when an explicit
config-override argument was passed (and is a silent no-op otherwise); the
real-time sync path passes the stored configuration explicitly, so the
error is raised inside it, but `syncTask` catches it — nothing is sent and
no error propagates out of the background path. -/
theorem C3_config_error_surfacing :
    (∀ (payload : List DataPoint) (ov : Option Config) (g : Config) (now : ℚ),
        ((Option.getD ov g).url = "" ∨ (Option.getD ov g).token = "") →
        (sendToGrafana payload ov g now = SendOutcome.configError ↔ ov.isSome = true)) ∧
    (∀ (task : Task) (cache : Caches) (g : Config) (now : ℚ),
        (g.url = "" ∨ g.token = "") →
        syncTask task cache g now = SyncObservable.caughtError) := by
  constructor
  · intro payload ov g now h
    cases ov with
    | none =>
        have h' : g.url = "" ∨ g.token = "" := by simpa using h
        unfold sendToGrafana
        simp only [Option.getD_none]
        rw [if_pos h']
        simp
    | some c =>
        have h' : c.url = "" ∨ c.token = "" := by simpa using h
        unfold sendToGrafana
        simp only [Option.getD_some]
        rw [if_pos h']
        simp
  · intro task cache g now h
    have hs : sendToGrafana [enrichTaskData task cache g now] (some g) g now =
        SendOutcome.configError := by
      unfold sendToGrafana
      simp only [Option.getD_some]
      rw [if_pos h]
    unfold syncTask
    rw [hs]

/-- Witness for C3 at concrete inputs: the unconfigured default
configuration. -/
theorem C3_witness :
    (sendToGrafana [] (some defaultConfig) defaultConfig 0 = SendOutcome.configError ↔
      (some defaultConfig).isSome = true) ∧
    syncTask otherTask ⟨[], []⟩ defaultConfig 0 = SyncObservable.caughtError :=
  ⟨C3_config_error_surfacing.1 [] (some defaultConfig) defaultConfig 0 (Or.inl rfl),
   C3_config_error_surfacing.2 otherTask ⟨[], []⟩ defaultConfig 0 (Or.inl rfl)⟩

/-! ## Claim C4 -/

/-- Claim C4, confirmed: a data point with no surviving field encodes to
the empty string; the delivery body consists of exactly the non-empty
encoded lines; and when every point's fields are filtered away, a
configured send becomes a silent no-op before any request is issued. -/
theorem C4_empty_fields_no_send :
    (∀ (item : DataPoint) (now : ℚ),
        item.fields.filter (fun kv => keepField kv.2) = [] → toLineProtocol item now = "") ∧
    (∀ (payload : List DataPoint) (now : ℚ),
        bodyOf payload now =
          joinSep "\n" ((payload.filter fun p => !(toLineProtocol p now == "")).map
            fun p => toLineProtocol p now)) ∧
    (∀ (payload : List DataPoint) (ov : Option Config) (g : Config) (now : ℚ),
        (Option.getD ov g).url ≠ "" → (Option.getD ov g).token ≠ "" →
        (∀ p ∈ payload, p.fields.filter (fun kv => keepField kv.2) = []) →
        sendToGrafana payload ov g now = SendOutcome.skippedEmptyBody) := by
  have h1 : ∀ (item : DataPoint) (now : ℚ),
      item.fields.filter (fun kv => keepField kv.2) = [] → toLineProtocol item now = "" := by
    intro item now h
    unfold toLineProtocol
    rw [h]
    simp [joinSep]
  refine ⟨h1, ?_, ?_⟩
  · intro payload now
    unfold bodyOf
    rw [List.filter_map]
    rfl
  · intro payload ov g now hu ht hall
    have hb : bodyOf payload now = "" := by
      unfold bodyOf
      have hfil : (payload.map fun p => toLineProtocol p now).filter (fun l => !(l == "")) = [] := by
        rw [List.filter_eq_nil_iff]
        intro a ha
        obtain ⟨p, hp, rfl⟩ := List.mem_map.mp ha
        simp [h1 p now (hall p hp)]
      rw [hfil]
      rfl
    simp [sendToGrafana, hu, ht, hb]

/-- Witness for C4: a point whose only field value is `null`. -/
theorem C4_witness :
    toLineProtocol nullFieldPoint 0 = "" ∧
    sendToGrafana [nullFieldPoint] none fullConfig 0 = SendOutcome.skippedEmptyBody :=
  ⟨C4_empty_fields_no_send.1 nullFieldPoint 0 rfl,
   C4_empty_fields_no_send.2.2 [nullFieldPoint] none fullConfig 0 (by decide) (by decide)
     (by
       intro p hp
       rw [List.mem_singleton] at hp
       subst hp
       rfl)⟩

/-! ## Claim C5 -/

/-- Claim C5 (code_bug evidence): when the persistence step fails during an
interactive save, the code (`plugin.js` lines 81–95) logs the failure but
shows no notification at all — the notification list is empty — while a
successful persistence shows exactly one success notification.  The claim
(and the specification's stated policy that every interactive action ends
in exactly one user-visible notification, which the sibling test path and
bulk path do implement) is the intent; the silent failure branch is the
bug. -/
theorem C5_save_notifications :
    handleSaveConfig defaultConfig (some fullConfig) false = (fullConfig, []) ∧
    handleSaveConfig defaultConfig (some fullConfig) true =
      (fullConfig, [⟨.SUCCESS, "Configuration persisted."⟩]) :=
  ⟨rfl, rfl⟩

/-! ## Claim C6 -/

/-- Claim C6, corrected part: the heartbeat's `service` tag value in the
code (`plugin.js` line 374) is `grafana-bridge`, not `bridge` as the claim
states. -/
theorem C6_counterexample :
    (mkHeartbeat fullConfig 0).tags ≠
      [("service", JSVal.str "bridge"), ("type", JSVal.str "heartbeat")] := by
  decide

/-- Claim C6 as amended: on a test-connection request with a complete
caller-supplied configuration, exactly one synthetic heartbeat data point
is constructed and sent — measurement equal to the configuration's
measurement name, tags `{service: "grafana-bridge", type: "heartbeat"}`,
exactly one field `{status: 1}`, timestamp equal to the current time — and
exactly one success-or-failure notification is shown. -/
theorem C6_heartbeat_shape (cfg : Config) (now : ℚ) (net : NetResult)
    (hu : cfg.url ≠ "") (ht : cfg.token ≠ "") (hm : cfg.measurement ≠ "") :
    (testConnection cfg now net).sentPoints = [mkHeartbeat cfg now] ∧
    mkHeartbeat cfg now =
      { measurement := cfg.measurement,
        tags := [("service", .str "grafana-bridge"), ("type", .str "heartbeat")],
        fields := [("status", .num (.finite 1))],
        timestamp := .finite now } ∧
    (testConnection cfg now net).outcome =
      some (SendOutcome.request (withPrecision cfg.url)
        (toLineProtocol (mkHeartbeat cfg now) now)) ∧
    (testConnection cfg now net).snacks.length = 1 ∧
    (net = .ok →
      (testConnection cfg now net).snacks =
        [⟨.SUCCESS, "Connection verified successfully."⟩]) := by
  have hcond : ¬(cfg.url = "" ∨ cfg.token = "") := not_or.mpr ⟨hu, ht⟩
  have hhb : mkHeartbeat cfg now =
      { measurement := cfg.measurement,
        tags := [("service", .str "grafana-bridge"), ("type", .str "heartbeat")],
        fields := [("status", .num (.finite 1))],
        timestamp := .finite now } := by
    simp [mkHeartbeat, jsOr, hm]
  have hline : toLineProtocol (mkHeartbeat cfg now) now ≠ "" := by
    apply toLineProtocol_ne_empty
    simp [mkHeartbeat, keepField]
  have hsend : sendToGrafana [mkHeartbeat cfg now] (some cfg) cfg now =
      .request (withPrecision cfg.url) (toLineProtocol (mkHeartbeat cfg now) now) := by
    unfold sendToGrafana
    simp only [Option.getD_some]
    rw [if_neg hcond]
    have hbody : bodyOf [mkHeartbeat cfg now] now = toLineProtocol (mkHeartbeat cfg now) now := by
      unfold bodyOf
      simp [hline, joinSep]
    rw [hbody, if_neg hline]
  have hbase : ∀ netr, testConnection cfg now netr =
      ⟨[mkHeartbeat cfg now],
       some (SendOutcome.request (withPrecision cfg.url)
         (toLineProtocol (mkHeartbeat cfg now) now)),
       match errMsgOf netr with
       | none => [⟨.SUCCESS, "Connection verified successfully."⟩]
       | some m => [⟨.ERROR, "Connection failed: " ++ m⟩]⟩ := by
    intro netr
    simp only [testConnection]
    rw [if_neg hcond]
    have hfull : sendFull [mkHeartbeat cfg now] (some cfg) cfg now netr =
        (match errMsgOf netr with
         | none => Except.ok ()
         | some m => Except.error m) := by
      unfold sendFull
      rw [hsend]
    rw [hfull]
    cases herr : errMsgOf netr <;> simp [herr, hsend]
  refine ⟨?_, hhb, ?_, ?_, ?_⟩
  · rw [hbase net]
  · rw [hbase net]
  · rw [hbase net]
    cases errMsgOf net <;> rfl
  · intro hok
    subst hok
    rw [hbase .ok]
    rfl

/-- Witness for C6 at a complete concrete configuration. -/
theorem C6_witness :
    (testConnection fullConfig 0 .ok).sentPoints = [mkHeartbeat fullConfig 0] ∧
    mkHeartbeat fullConfig 0 =
      { measurement := fullConfig.measurement,
        tags := [("service", .str "grafana-bridge"), ("type", .str "heartbeat")],
        fields := [("status", .num (.finite 1))],
        timestamp := .finite 0 } ∧
    (testConnection fullConfig 0 .ok).outcome =
      some (SendOutcome.request (withPrecision fullConfig.url)
        (toLineProtocol (mkHeartbeat fullConfig 0) 0)) ∧
    (testConnection fullConfig 0 .ok).snacks.length = 1 ∧
    (NetResult.ok = .ok →
      (testConnection fullConfig 0 .ok).snacks =
        [⟨.SUCCESS, "Connection verified successfully."⟩]) :=
  C6_heartbeat_shape fullConfig 0 .ok (by decide) (by decide) (by decide)

/-! ## Claim C7 -/

theorem debRun_burst (l : List (Task × ℕ)) : ∀ (hne : l ≠ []),
    (∀ p ∈ l.dropLast, p.2 < 5000) → 5000 ≤ (l.getLast hne).2 →
    ∀ s, debRun s (mkTrace l) = [(l.getLast hne).1] := by
  induction l with
  | nil => intro hne; exact absurd rfl hne
  | cons hd tl ih =>
    intro hne hgaps hlast s
    obtain ⟨t, g⟩ := hd
    cases tl with
    | nil =>
        have hg : 5000 ≤ g := by simpa using hlast
        simp [mkTrace, debRun, debStep, Nat.not_lt.mpr hg]
    | cons hd2 tl2 =>
        have hgap : g < 5000 := by
          refine hgaps (t, g) ?_
          rw [List.dropLast_cons₂]
          exact List.mem_cons_self _ _
        have hlast' : 5000 ≤ ((hd2 :: tl2).getLast (by simp)).2 := by
          simpa [List.getLast_cons] using hlast
        have hgaps' : ∀ p ∈ (hd2 :: tl2).dropLast, p.2 < 5000 := by
          intro p hp
          refine hgaps p ?_
          rw [List.dropLast_cons₂]
          exact List.mem_cons_of_mem _ hp
        have ihh := ih (by simp) hgaps' hlast' (some (t, 5000 - g))
        simp only [mkTrace, debRun, debStep, List.nil_append] at ihh ⊢
        rw [if_pos hgap]
        simp only [List.nil_append, List.getLast_cons]
        exact ihh

/-- Claim C7, confirmed: every task-updated event resets the single shared
debounce timer to 5000 ms, and a burst of N ≥ 1 updates whose internal
quiet gaps are each shorter than 5000 ms, followed by a quiet period of at
least 5000 ms, results in exactly one send, carrying the last event's task
— the earlier updates are superseded and never sent. -/
theorem C7_debounce_last_update_wins (l : List (Task × ℕ)) (hne : l ≠ [])
    (hgaps : ∀ p ∈ l.dropLast, p.2 < 5000) (hlast : 5000 ≤ (l.getLast hne).2) :
    debRun none (mkTrace l) = [(l.getLast hne).1] ∧
    (∀ (s : Option (Task × ℕ)) (t : Task), debStep s (.update t) = (some (t, 5000), [])) := by
  refine ⟨debRun_burst l hne hgaps hlast none, ?_⟩
  intro s t
  cases s <;> rfl

/-- Witness for C7: two updates 100 ms apart followed by 6000 ms of quiet
produce exactly one send, carrying the second task. -/
theorem C7_witness :
    debRun none (mkTrace [(emptyTask, 100), (otherTask, 6000)]) = [otherTask] ∧
    debStep none (.update emptyTask) = (some (emptyTask, 5000), []) := by
  have h := C7_debounce_last_update_wins [(emptyTask, 100), (otherTask, 6000)] (by simp)
    (by decide) (by decide)
  exact ⟨h.1, h.2 none emptyTask⟩

/-! ## Claim C8 -/

theorem chunks_nil : chunks [] = [] := by
  simp [chunks]

theorem chunks_cons_of_ne (l : List Task) (h : l ≠ []) :
    chunks l = l.take batchSize :: chunks (l.drop batchSize) := by
  cases l with
  | nil => exact absurd rfl h
  | cons a as => rw [chunks]

theorem mem_chunks_ne_nil (l : List Task) : ∀ b ∈ chunks l, b ≠ [] := by
  induction l using chunks.induct with
  | case1 => simp [chunks_nil]
  | case2 t ts ih =>
      intro b hb
      rw [chunks_cons_of_ne _ (by simp)] at hb
      rcases List.mem_cons.mp hb with rfl | hb2
      · simp [List.take_eq_nil_iff, batchSize]
      · exact ih b hb2

theorem chunks_len_120 (l : List Task) (h : l.length = 120) :
    (chunks l).map List.length = [50, 50, 20] := by
  have h0 : l ≠ [] := by
    intro he
    rw [he] at h
    simp at h
  rw [chunks_cons_of_ne l h0]
  have hd1 : (l.drop batchSize).length = 70 := by simp [batchSize, h]
  have h1 : l.drop batchSize ≠ [] := by
    intro he
    rw [he] at hd1
    simp at hd1
  rw [chunks_cons_of_ne _ h1]
  have hd2 : ((l.drop batchSize).drop batchSize).length = 20 := by simp [batchSize, h]
  have h2 : (l.drop batchSize).drop batchSize ≠ [] := by
    intro he
    rw [he] at hd2
    simp at hd2
  rw [chunks_cons_of_ne _ h2]
  have hd3 : (((l.drop batchSize).drop batchSize).drop batchSize).length = 0 := by
    simp [batchSize, h]
  rw [List.eq_nil_of_length_eq_zero hd3, chunks_nil]
  simp [batchSize, List.length_take, h, hd1, hd2]

theorem keepField_num (n : JSNumber) : keepField (.num n) = true := rfl

theorem enrich_filter_ne (task : Task) (cache : Caches) (g : Config) (now : ℚ) :
    ((enrichTaskData task cache g now).fields.filter fun kv => keepField kv.2) ≠ [] := by
  intro h
  rw [show (enrichTaskData task cache g now).fields =
      ("duration_ms", .num (numericOrZero task.timeSpent)) ::
      [("title", if jsTruthy task.title then task.title else .str "Untitled"),
       ("estimate_ms", .num (numericOrZero task.timeEstimate)),
       ("efficiency_ratio", .num (efficiency task.timeSpent task.timeEstimate))] from rfl] at h
  simp [keepField_num] at h

theorem enrich_line_ne (task : Task) (cache : Caches) (g : Config) (now now₂ : ℚ) :
    toLineProtocol (enrichTaskData task cache g now) now₂ ≠ "" :=
  toLineProtocol_ne_empty _ _ (enrich_filter_ne task cache g now)

theorem batch_body_ne (b : List Task) (hb : b ≠ []) (cache : Caches) (g : Config) (now : ℚ) :
    bodyOf (b.map fun t => enrichTaskData t cache g now) now ≠ "" := by
  cases b with
  | nil => exact absurd rfl hb
  | cons t ts =>
      unfold bodyOf
      simp only [List.map_cons, List.map_map]
      have hl : toLineProtocol (enrichTaskData t cache g now) now ≠ "" :=
        enrich_line_ne t cache g now now
      rw [List.filter_cons_of_pos (by simp [hl])]
      exact joinSep_ne_empty _ _ _ hl

theorem sendToGrafana_request_eq (payload : List DataPoint) (ov : Option Config)
    (g : Config) (now : ℚ) (hu : (Option.getD ov g).url ≠ "")
    (ht : (Option.getD ov g).token ≠ "") (hbody : bodyOf payload now ≠ "") :
    sendToGrafana payload ov g now =
      .request (withPrecision (Option.getD ov g).url) (bodyOf payload now) := by
  unfold sendToGrafana
  rw [if_neg (not_or.mpr ⟨hu, ht⟩), if_neg hbody]

theorem sendFull_of_request (payload : List DataPoint) (ov : Option Config) (g : Config)
    (now : ℚ) (net : NetResult) (hu : (Option.getD ov g).url ≠ "")
    (ht : (Option.getD ov g).token ≠ "") (hbody : bodyOf payload now ≠ "") :
    sendFull payload ov g now net =
      (match errMsgOf net with
       | none => Except.ok ()
       | some m => Except.error m) := by
  unfold sendFull
  rw [sendToGrafana_request_eq payload ov g now hu ht hbody]

theorem goBatches_all_ok (cache : Caches) (g : Config) (now : ℚ) (net : ℕ → NetResult)
    (hu : g.url ≠ "") (ht : g.token ≠ "") (hok : ∀ k, net k = .ok) :
    ∀ (bs : List (List Task)) (s : ℕ), (∀ b ∈ bs, b ≠ []) →
      goBatches cache g now net s bs = (bs, none) := by
  intro bs
  induction bs with
  | nil => intro s _; rfl
  | cons b t ih =>
      intro s hne
      have hb : b ≠ [] := hne b (List.mem_cons_self _ _)
      have hsf : sendFull (b.map fun tk => enrichTaskData tk cache g now) (some g) g now
          (net s) = .ok () := by
        rw [hok s]
        rw [sendFull_of_request (b.map fun tk => enrichTaskData tk cache g now) (some g) g now
          NetResult.ok (by simpa using hu) (by simpa using ht)
          (batch_body_ne b hb cache g now)]
        rfl
      simp only [goBatches]
      rw [hsf, ih (s + 1) (fun b2 hb2 => hne b2 (List.mem_cons_of_mem _ hb2))]

theorem goBatches_abort (cache : Caches) (g : Config) (now : ℚ) (net : ℕ → NetResult)
    (hu : g.url ≠ "") (ht : g.token ≠ "") :
    ∀ (bs : List (List Task)) (s j : ℕ) (m : String), j < bs.length →
      (∀ i, i < j → net (s + i) = .ok) → errMsgOf (net (s + j)) = some m →
      (∀ b ∈ bs, b ≠ []) →
      goBatches cache g now net s bs = (bs.take (j + 1), some m) := by
  intro bs
  induction bs with
  | nil =>
      intro s j m hj _ _ _
      exact absurd hj (by simp)
  | cons b t ih =>
      intro s j m hj hpre hfail hne
      have hb : b ≠ [] := hne b (List.mem_cons_self _ _)
      cases j with
      | zero =>
          have hmsg : errMsgOf (net s) = some m := by simpa using hfail
          have hsf : sendFull (b.map fun tk => enrichTaskData tk cache g now) (some g) g now
              (net s) = .error m := by
            rw [sendFull_of_request (b.map fun tk => enrichTaskData tk cache g now) (some g) g
              now (net s) (by simpa using hu) (by simpa using ht)
              (batch_body_ne b hb cache g now), hmsg]
          simp only [goBatches]
          rw [hsf]
          rfl
      | succ j' =>
          have h0 : net s = .ok := by
            have := hpre 0 (Nat.succ_pos j')
            simpa using this
          have hsf : sendFull (b.map fun tk => enrichTaskData tk cache g now) (some g) g now
              (net s) = .ok () := by
            rw [h0]
            rw [sendFull_of_request (b.map fun tk => enrichTaskData tk cache g now) (some g) g
              now NetResult.ok (by simpa using hu) (by simpa using ht)
              (batch_body_ne b hb cache g now)]
            rfl
          have ihh := ih (s + 1) j' m (Nat.lt_of_succ_lt_succ (by simpa using hj))
            (fun i hi => by
              have harr : (s + 1) + i = s + (i + 1) := by omega
              rw [harr]
              exact hpre (i + 1) (by omega))
            (by
              have harr : (s + 1) + j' = s + (j' + 1) := by omega
              rw [harr]
              exact hfail)
            (fun b2 hb2 => hne b2 (List.mem_cons_of_mem _ hb2))
          simp only [goBatches]
          rw [hsf, ihh]
          rfl

/-- Claim C8, confirmed: bulk import walks the concatenation of the
archived and active task lists in fixed batches of fifty, issuing one
network write per batch in order; 120 tasks make exactly three batches of
sizes 50, 50 and 20, an all-success run reports one success notification,
and a failure on any batch aborts every remaining batch and yields exactly
one aggregate failure notification whose message carries no
partial-success count. -/
theorem C8_batched_import (archived active : List Task) (cache : Caches) (g : Config)
    (now : ℚ) (net : ℕ → NetResult) (hu : g.url ≠ "") (ht : g.token ≠ "")
    (hlen : (archived ++ active).length = 120) :
    ((chunks (archived ++ active)).map List.length = [50, 50, 20]) ∧
    (∀ b ∈ chunks (archived ++ active),
        sendToGrafana (b.map fun t => enrichTaskData t cache g now) (some g) g now =
          SendOutcome.request (withPrecision g.url)
            (bodyOf (b.map fun t => enrichTaskData t cache g now) now)) ∧
    ((∀ k, net k = .ok) →
        (importAllHistory archived active cache g now net).batches =
          chunks (archived ++ active) ∧
        (importAllHistory archived active cache g now net).snacks =
          [⟨.INFO, "Initiating global historical import..."⟩,
           ⟨.SUCCESS, "Successfully exported 120 items."⟩]) ∧
    (∀ j m, j < (chunks (archived ++ active)).length →
        (∀ i, i < j → net i = .ok) → errMsgOf (net j) = some m →
        (importAllHistory archived active cache g now net).batches =
          (chunks (archived ++ active)).take (j + 1) ∧
        (importAllHistory archived active cache g now net).snacks =
          [⟨.INFO, "Initiating global historical import..."⟩,
           ⟨.ERROR, "Bulk transfer failed: " ++ m⟩]) := by
  refine ⟨chunks_len_120 _ hlen, ?_, ?_, ?_⟩
  · intro b hb
    exact sendToGrafana_request_eq (b.map fun t => enrichTaskData t cache g now) (some g) g now
      (by simpa using hu) (by simpa using ht)
      (batch_body_ne b (mem_chunks_ne_nil _ b hb) cache g now)
  · intro hok
    have hgo := goBatches_all_ok cache g now net hu ht hok (chunks (archived ++ active)) 0
      (mem_chunks_ne_nil _)
    simp only [importAllHistory]
    rw [hgo, hlen]
    exact ⟨rfl, rfl⟩
  · intro j m hj hpre hfail
    have hgo := goBatches_abort cache g now net hu ht (chunks (archived ++ active)) 0 j m hj
      (fun i hi => by simpa using hpre i hi) (by simpa using hfail)
      (mem_chunks_ne_nil _)
    simp only [importAllHistory]
    rw [hgo]
    exact ⟨rfl, rfl⟩

/-- Witness for C8: 120 identical empty tasks; an all-success network and,
separately, a network failing from the second request onward. -/
theorem C8_witness :
    (importAllHistory [] (List.replicate 120 emptyTask) ⟨[], []⟩ fullConfig 0
        (fun _ => .ok)).snacks =
      [⟨.INFO, "Initiating global historical import..."⟩,
       ⟨.SUCCESS, "Successfully exported 120 items."⟩] ∧
    (importAllHistory [] (List.replicate 120 emptyTask) ⟨[], []⟩ fullConfig 0
        netFailAfterFirst).batches =
      (chunks ([] ++ List.replicate 120 emptyTask)).take 2 := by
  have hgen := C8_batched_import [] (List.replicate 120 emptyTask) ⟨[], []⟩ fullConfig 0
    (fun _ => .ok) (by decide) (by decide) (by simp)
  have hfailrun := C8_batched_import [] (List.replicate 120 emptyTask) ⟨[], []⟩ fullConfig 0
    netFailAfterFirst (by decide) (by decide) (by simp)
  refine ⟨(hgen.2.2.1 fun k => rfl).2, ?_⟩
  have hlen3 : (chunks ([] ++ List.replicate 120 emptyTask)).length = 3 := by
    have := hfailrun.1
    have h2 := congrArg List.length this
    simpa using h2
  exact (hfailrun.2.2.2 1 "boom" (by omega)
    (fun i hi => by
      have : i = 0 := by omega
      subst this
      rfl)
    rfl).1

/-! ## Claim C9 -/

/-- Claim C9, corrected part: `NaN` is a JavaScript number, so a task whose
`timeSpent` is `NaN` passes the `typeof === 'number'` guard while a
positive `timeEstimate` passes the `> 0` guard, and the division produces
`NaN` — contradicting the claim that this computation never produces an
infinity or `NaN`. -/
theorem C9_counterexample :
    jsGtZero (JSVal.num (.finite 1)) = true ∧
    isNumberVal (JSVal.num .nan) = true ∧
    efficiency (.num .nan) (.num (.finite 1)) = JSNumber.nan := by
  refine ⟨rfl, rfl, ?_⟩
  decide

/-- Claim C9 as amended: `efficiency` equals the quotient exactly when the
estimate compares greater than zero and the spent value is number-typed,
and equals `1` otherwise; and the result is a finite rational — never an
infinity or `NaN` — provided the spent value, where numeric, is finite. -/
theorem C9_guarded_ratio (timeSpent timeEstimate : JSVal) :
    (∀ q : ℚ, timeSpent = .num (.finite q) →
      ∃ r : ℚ, efficiency timeSpent timeEstimate = .finite r) ∧
    (isNumberVal timeSpent = false → efficiency timeSpent timeEstimate = .finite 1) ∧
    (jsGtZero timeEstimate = false → efficiency timeSpent timeEstimate = .finite 1) ∧
    (jsGtZero timeEstimate = true → isNumberVal timeSpent = true →
      efficiency timeSpent timeEstimate =
        jsDiv (toNumber timeSpent) (toNumber timeEstimate)) := by
  refine ⟨?_, ?_, ?_, ?_⟩
  · intro q hq
    subst hq
    by_cases hg : jsGtZero timeEstimate = true
    · cases hn : toNumber timeEstimate with
      | finite p =>
          have hp : 0 < p := by simpa [jsGtZero, hn] using hg
          refine ⟨q / p, ?_⟩
          have h1 : toNumber (JSVal.num (.finite q)) = .finite q := rfl
          simp [efficiency, hg, isNumberVal, h1, hn, jsDiv, hp.ne']
      | nan => simp [jsGtZero, hn] at hg
      | posInf =>
          refine ⟨0, ?_⟩
          have h1 : toNumber (JSVal.num (.finite q)) = .finite q := rfl
          simp [efficiency, hg, isNumberVal, h1, hn, jsDiv]
      | negInf => simp [jsGtZero, hn] at hg
    · refine ⟨1, ?_⟩
      have hg' : jsGtZero timeEstimate = false := by simpa using hg
      simp [efficiency, hg']
  · intro h
    simp [efficiency, h]
  · intro h
    simp [efficiency, h]
  · intro hg hn
    simp [efficiency, hg, hn]

/-- Witness for C9: a finite spent time and positive estimate yield a
finite ratio. -/
theorem C9_witness :
    ∃ r : ℚ, efficiency (.num (.finite 6)) (.num (.finite 3)) = .finite r :=
  (C9_guarded_ratio (.num (.finite 6)) (.num (.finite 3))).1 6 rfl

/-! ## Claim C10 -/

/-- Claim C10, corrected part: for a task lacking both `updated` and
`created`, the enricher falls back to `Date.now()` (`plugin.js` line 231),
so two calls at different wall-clock times yield data points with
different timestamps — enrich is not independent of the call time. -/
theorem C10_counterexample :
    enrichTaskData emptyTask ⟨[], []⟩ fullConfig 1000 ≠
      enrichTaskData emptyTask ⟨[], []⟩ fullConfig 2000 := by
  decide

/-- Claim C10 as amended: enrich is a total function of the task, the
caches, the configuration and the current time; whenever the task carries
a truthy `updated` or `created` value, the result is independent of the
current time, so two calls on the same task and cache state yield
identical data points. -/
theorem C10_time_independent_when_stamped (task : Task) (cache : Caches) (cfg : Config)
    (n₁ n₂ : ℚ)
    (h : jsTruthy task.updated = true ∨ jsTruthy task.created = true) :
    enrichTaskData task cache cfg n₁ = enrichTaskData task cache cfg n₂ := by
  unfold enrichTaskData
  rcases h with h | h
  · simp [h]
  · by_cases hu : jsTruthy task.updated <;> simp [hu, h]

/-- Witness for C10: the worked example task carries an `updated`
timestamp, so its enrichment is the same at two different call times. -/
theorem C10_witness :
    enrichTaskData exampleTask exampleCaches fullConfig 1000 =
      enrichTaskData exampleTask exampleCaches fullConfig 2000 :=
  C10_time_independent_when_stamped exampleTask exampleCaches fullConfig 1000 2000
    (Or.inl (by decide))

end GrafanaBridge
